import Mathlib

/-!
Shallow embedding of `src/api/sauce/api.py` (the SauceNAO endpoint of
HibiAPI): the streaming fetch with a size cap (`SauceEndpoint.fetch`), the
upstream POST (`SauceEndpoint.request`) and the orchestrator
(`SauceEndpoint.search`), together with the small data model they use
(`UploadFileIO` as a seekable byte buffer, `DeduplicateType`, the params
dict).

Library behaviour that the source relies on is embedded per the libraries'
documented semantics:
  * `httpx.Headers.get(key, default)` returns the header value as a `str`
    when the header is present, and the given default otherwise; in Python,
    `str > int` raises `TypeError`.
  * `httpx.Response.raise_for_status()` raises `HTTPStatusError` exactly
    when the status code is not a 2xx success code.
  * `HTTPStatusError` is a subclass of `HTTPError`; transport failures
    (connect errors, timeouts, read errors) are `HTTPError`s that are not
    `HTTPStatusError`s.
  * `io.BytesIO.write` appends at the cursor (the cursor is at the end
    throughout the fetch loop) and returns the number of bytes written;
    `seek(0)` moves the cursor to position 0.

Configuration and helpers imported from `utils.*` and `.constants`
(`SauceConstants`, `BaseHostUrl`, `BaseEndpoint`, the exception base
classes) are not part of `src/`; where a claim depends on them they are
modelled from the spec and documented as such. In particular the
application-level exceptions (`ClientSideException`, `UpstreamAPIException`
and their subclasses) are, per the spec's error model, client/server facing
errors distinct from the transport layer: they are not `httpx.HTTPError`s,
so an `except HTTPError` clause does not catch them.

The fixed request headers and timeout of the fetch, and the multipart file
part and URL assembly (`_join`) of the POST, do not affect any claim and are
not given further structure here.
-/

namespace Sauce

/-- A chunk of body bytes as yielded by the raw `response.stream`. -/
abbrev Chunk := List Nat

/-- Embeds `UploadFileIO` (an `io.BytesIO`): the byte contents plus the read
cursor position. -/
structure UploadFile where
  data : List Nat
  pos : Nat
deriving Repr, DecidableEq

/-- `UploadFileIO()`: a fresh empty buffer, cursor at 0. -/
def UploadFile.empty : UploadFile := ⟨[], 0⟩

/-- `file.write(chunk)`: appends at the cursor (during the fetch loop the
cursor is always at the end) and returns the number of bytes written. -/
def UploadFile.write (f : UploadFile) (c : Chunk) : UploadFile × Nat :=
  (⟨f.data ++ c, f.pos + c.length⟩, c.length)

/-- `file.seek(0)`: moves the cursor to the start. -/
def UploadFile.seek0 (f : UploadFile) : UploadFile := ⟨f.data, 0⟩

/-- The total number of bytes held by the buffer. -/
def UploadFile.size (f : UploadFile) : Nat := f.data.length

/-- One step of iterating `response.stream`: either a chunk of body bytes
arrives, or the transport fails with an `httpx.HTTPError` whose `str` is
`msg`. -/
inductive StreamEvent
  | chunk (c : Chunk)
  | httpError (msg : String)
deriving Repr, DecidableEq

/-- The observable behaviour of the streaming GET response: the raw value of
the `content-length` header when present (httpx header values are strings),
and the sequence of stream events. -/
structure Response where
  contentLength : Option String
  events : List StreamEvent
deriving Repr, DecidableEq

/-- What the world behind `self.client.stream(...)` does: either opening the
connection raises an `httpx.HTTPError` with message `msg`, or a response is
obtained. -/
inductive FetchInput
  | openError (msg : String)
  | ok (r : Response)
deriving Repr, DecidableEq

/-- Outcome of the Python comparison
`response.headers.get("content-length", -1) > IMAGE_MAXIMUM_SIZE`. -/
inductive PyCmp
  | ok (b : Bool)
  | typeError
deriving Repr, DecidableEq

/-- `headers.get("content-length", -1) > maxSize`: when the header is
present its value is a `str`, and `str > int` raises `TypeError`; when it is
absent the comparison is `-1 > maxSize` between ints. -/
def headerGtMax (contentLength : Option String) (maxSize : Nat) : PyCmp :=
  match contentLength with
  | some _ => .typeError
  | none => .ok (decide ((-1 : Int) > (maxSize : Int)))

/-- How `SauceEndpoint.fetch` terminates.

`oversized` is `ImageSourceOversizedException`; `unavailable d` is
`UnavailableSourceException(detail=d)`; `pyTypeError` is the uncaught
`TypeError` raised by comparing a `str` header value with an int (it is not
an `HTTPError`, so the `except HTTPError` clause does not catch it). -/
inductive FetchResult
  | success (file : UploadFile)
  | oversized
  | unavailable (detail : String)
  | pyTypeError
deriving Repr, DecidableEq

/-- The `async for stream in response.stream` loop of `fetch`, plus the
`file.seek(0)` that follows a normal exit of the `async with` block.

Returns the fetch outcome together with the number of body bytes consumed
from the stream. `size` is the running byte count; each chunk is written to
the buffer, the count is advanced by the write's return value, and the cap
check `size > maxSize` runs after every chunk. A transport error raised by
the iteration is caught by `except HTTPError` and wrapped as
`UnavailableSourceException(detail=str(e))`; `ImageSourceOversizedException`
is not an `HTTPError` and propagates unchanged. -/
def fetchLoop (maxSize : Nat) : UploadFile → Nat → List StreamEvent → FetchResult × Nat
  | file, _, [] => (.success file.seek0, 0)
  | _, _, .httpError m :: _ => (.unavailable m, 0)
  | file, size, .chunk c :: rest =>
      let stepped := file.write c
      if size + stepped.2 > maxSize then (.oversized, stepped.2)
      else
        let r := fetchLoop maxSize stepped.1 (size + stepped.2) rest
        (r.1, stepped.2 + r.2)

/-- Embeds `SauceEndpoint.fetch`, returning the outcome and the number of
response body bytes read.

An `HTTPError` raised while opening the stream is wrapped as
`UnavailableSourceException(detail=str(e))`. Otherwise the content-length
header check runs first: with a header present the Python comparison raises
`TypeError` (uncaught); with no header the comparison is `-1 > maxSize` and,
were it true, `ImageSourceOversizedException` would be raised before reading
any body bytes. Then the streaming loop runs. -/
def fetch (maxSize : Nat) : FetchInput → FetchResult × Nat
  | .openError m => (.unavailable m, 0)
  | .ok r =>
      match headerGtMax r.contentLength maxSize with
      | .typeError => (.pyTypeError, 0)
      | .ok true => (.oversized, 0)
      | .ok false => fetchLoop maxSize UploadFile.empty 0 r.events

/-- Total byte count of a list of chunks. -/
def chunksTotal (l : List Chunk) : Nat := (l.map List.length).sum

/-- A value of the `params` dict: Python `None`, an int (also covering the
`IntEnum` member `deduplicate`, which serializes as its integer value), or a
str (the API key). -/
inductive PVal
  | none
  | int (i : Int)
  | str (s : String)
deriving Repr, DecidableEq

/-- A Python dict with string keys, as an insertion-ordered association list
with distinct keys maintained by `dictInsert`. -/
abbrev Params := List (String × PVal)

/-- Python dict lookup: the value stored at `k`, if any. -/
def lookup (d : Params) (k : String) : Option PVal :=
  match d with
  | [] => Option.none
  | kv :: rest => if kv.1 = k then some kv.2 else lookup rest k

/-- Python `d[k] = v`: overwrite in place when the key exists, otherwise
append the new key at the end (insertion order). -/
def dictInsert (d : Params) (k : String) (v : PVal) : Params :=
  if (lookup d k).isSome then
    d.map (fun kv => if kv.1 = k then (k, v) else kv)
  else d ++ [(k, v)]

/-- Python `d.update(new)`: set each key/value item of `new` in order. -/
def dictUpdate (d : Params) : Params → Params
  | [] => d
  | (k, v) :: rest => dictUpdate (dictInsert d k v) rest

/-- Embeds `DeduplicateType` (`IntEnum`): 0 = no deduping, 1 = by item
identifier, 2 = all implemented dedupe methods (the default). -/
inductive DeduplicateType
  | DISABLED
  | IDENTIFIER
  | ALL
deriving Repr, DecidableEq

/-- The integer value of a `DeduplicateType` member. -/
def DeduplicateType.toInt : DeduplicateType → Int
  | .DISABLED => 0
  | .IDENTIFIER => 1
  | .ALL => 2

/-- The observable behaviour of the upstream POST issued by
`self.client.post(...)`: either a transport-level `httpx.HTTPError` (which is
not an `HTTPStatusError`), or a response with a status code, a body text
(`response.text`) and, abstractly, the value `response.json()` parses the
body into. `J` stands for the parsed-JSON type, which this adapter treats as
opaque. -/
inductive PostOutcome (J : Type)
  | transportError
  | response (status : Nat) (text : String) (json : J)
deriving Repr, DecidableEq

/-- `UpstreamAPIException`: raised with `detail = some t` when constructed
from an `HTTPStatusError`'s response body text, and with no body detail
(`Option.none`, the class's generic default) on a plain transport error. -/
inductive RequestError
  | upstream (detail : Option String)
deriving Repr, DecidableEq

/-- What a call to `SauceEndpoint.request` leaves behind: `params` is the
caller's dict object after the in-place `params.update(...)` (the same
mutated dict is also what `_join` serializes into the POST query string),
and `result` is the call's outcome. -/
structure RequestOutput (J : Type) where
  params : Params
  result : Except RequestError J
deriving Repr

/-- Embeds `SauceEndpoint.request`.

First `params.update({"api_key": ..., "output_type": 2})` mutates the
caller's dict in place; then the multipart POST (attaching `file`) is
issued. `response.raise_for_status()` raises `HTTPStatusError` unless the
status is a 2xx success; that handler re-raises
`UpstreamAPIException(detail=e.response.text)`; any other `HTTPError`
becomes a generic `UpstreamAPIException`. On success `response.json()` is
returned. -/
def request {J : Type} (apiKey : String) (file : UploadFile) (params : Params)
    (post : PostOutcome J) : RequestOutput J :=
  let merged := dictUpdate params [("api_key", PVal.str apiKey), ("output_type", PVal.int 2)]
  match post with
  | .transportError => ⟨merged, .error (.upstream Option.none)⟩
  | .response status text json =>
      if 200 ≤ status ∧ status < 300 then ⟨merged, .ok json⟩
      else ⟨merged, .error (.upstream (some text))⟩

/-- How `SauceEndpoint.search` terminates when it does not return a JSON
mapping: the fetch-side exceptions propagate unchanged, an upstream failure
propagates as `UpstreamAPIException`, and `assert file is not None` fails
with `AssertionError` when neither `url` nor `file` was supplied. -/
inductive SearchError
  | sourceUnavailable (detail : String)
  | sourceOversized
  | sourcePyTypeError
  | upstream (detail : Option String)
  | assertionError
deriving Repr, DecidableEq

/-- The observable behaviour of one `search` call: how many streaming GET
requests the fetcher performed, the params dict carried by the upstream POST
when one was issued, and the call's result. -/
structure SearchTrace (J : Type) where
  getRequests : Nat
  postParams : Option Params
  result : Except SearchError J
deriving Repr

/-- The params dict literal built by `search` and passed to `request`. -/
def searchParams (size : Int) (deduplicate : DeduplicateType)
    (database enabled_mask disabled_mask : Option Int) : Params :=
  [("dbmask", match enabled_mask with | some i => PVal.int i | Option.none => PVal.none),
   ("dbmaski", match disabled_mask with | some i => PVal.int i | Option.none => PVal.none),
   ("db", match database with | some i => PVal.int i | Option.none => PVal.none),
   ("numres", PVal.int size),
   ("dedupe", PVal.int deduplicate.toInt)]

/-- Embeds `SauceEndpoint.search`.

If `url` was supplied (its network behaviour given by the `FetchInput`), the
fetcher runs first and its buffer is used; otherwise the caller's `file`
buffer is used directly and no GET is performed; with neither, the `assert`
fails. The buffer then goes to `request` with the assembled params dict, and
the result is returned verbatim. -/
def search {J : Type} (apiKey : String) (maxSize : Nat) (url : Option FetchInput)
    (file : Option UploadFile) (size : Int) (deduplicate : DeduplicateType)
    (database enabled_mask disabled_mask : Option Int)
    (post : PostOutcome J) : SearchTrace J :=
  let params := searchParams size deduplicate database enabled_mask disabled_mask
  match url with
  | some net =>
      match (fetch maxSize net).1 with
      | .success f =>
          let out := request apiKey f params post
          ⟨1, some out.params,
            out.result.mapError (fun e => match e with | .upstream d => .upstream d)⟩
      | .unavailable d => ⟨1, Option.none, .error (.sourceUnavailable d)⟩
      | .oversized => ⟨1, Option.none, .error .sourceOversized⟩
      | .pyTypeError => ⟨1, Option.none, .error .sourcePyTypeError⟩
  | Option.none =>
      match file with
      | some f =>
          let out := request apiKey f params post
          ⟨0, some out.params,
            out.result.mapError (fun e => match e with | .upstream d => .upstream d)⟩
      | Option.none => ⟨0, Option.none, .error .assertionError⟩

/-- `search` with every optional parameter left at its default:
`size=30`, `deduplicate=DeduplicateType.ALL`, `database=None`,
`enabled_mask=None`, `disabled_mask=None`. -/
def searchDefault {J : Type} (apiKey : String) (maxSize : Nat)
    (url : Option FetchInput) (file : Option UploadFile)
    (post : PostOutcome J) : SearchTrace J :=
  search apiKey maxSize url file 30 DeduplicateType.ALL
    Option.none Option.none Option.none post

/-- Modelled from the spec: `BaseHostUrl` (in `utils.utils`, not under
`src/`) validates a URL whose host must belong to `allowed_hosts`
(`SauceConstants.IMAGE_ALLOWED_HOST`); "construction fails if the host is
not in the allow-list", and this validation is pure — it happens before any
network call. -/
structure HostUrl where
  host : String
deriving Repr, DecidableEq

/-- Modelled from the spec: constructing a validated `HostUrl` from a raw
host string succeeds exactly when the host is in the allow-list. -/
def HostUrl.validate (allowed : List String) (host : String) :
    Except String HostUrl :=
  if host ∈ allowed then .ok ⟨host⟩ else .error "host not in allow-list"

/-- A `search`-by-URL entry seen from the boundary where the raw host string
is validated: if `HostUrl` construction fails, `search` is never entered and
no trace (hence no network request) exists. -/
def searchByUrl {J : Type} (allowed : List String) (apiKey : String)
    (maxSize : Nat) (host : String) (net : FetchInput)
    (post : PostOutcome J) : Except String (SearchTrace J) :=
  match HostUrl.validate allowed host with
  | .error e => .error e
  | .ok _ => .ok (searchDefault apiKey maxSize (some net) Option.none post)

/-! ### Helper lemmas about the params dict -/

lemma lookup_append (d e : Params) (k : String) :
    lookup (d ++ e) k =
      match lookup d k with
      | some v => some v
      | Option.none => lookup e k := by
  induction d with
  | nil => simp [lookup]
  | cons kv rest ih =>
      by_cases h : kv.1 = k
      · simp [lookup, h]
      · simp [lookup, h, ih]

lemma lookup_map_overwrite (k : String) (v : PVal) :
    ∀ d : Params, (lookup d k).isSome →
      lookup (d.map (fun kv => if kv.1 = k then (k, v) else kv)) k = some v := by
  intro d
  induction d with
  | nil => simp [lookup]
  | cons kv rest ih =>
      intro hsome
      by_cases h : kv.1 = k
      · simp [lookup, h]
      · simp only [lookup, h, if_false] at hsome
        simp [lookup, h, ih hsome]

lemma lookup_dictInsert_self (d : Params) (k : String) (v : PVal) :
    lookup (dictInsert d k v) k = some v := by
  unfold dictInsert
  by_cases h : (lookup d k).isSome
  · rw [if_pos h]
    exact lookup_map_overwrite k v d h
  · rw [if_neg h]
    rw [lookup_append]
    rcases hd : lookup d k with _ | w
    · simp [lookup]
    · rw [hd] at h; simp at h

lemma lookup_dictInsert_ne (d : Params) (k : String) (v : PVal) (k' : String)
    (hne : k' ≠ k) :
    lookup (dictInsert d k v) k' = lookup d k' := by
  unfold dictInsert
  by_cases h : (lookup d k).isSome
  · rw [if_pos h]
    clear h
    induction d with
    | nil => simp [lookup]
    | cons kv rest ih =>
        by_cases hk : kv.1 = k
        · have : kv.1 ≠ k' := by rw [hk]; exact fun e => hne e.symm
          simp [lookup, hk, this, Ne.symm hne, ih]
        · by_cases hk' : kv.1 = k'
          · simp [lookup, hk, hk', hne]
          · simp [lookup, hk, hk', ih]
  · rw [if_neg h]
    rw [lookup_append]
    rcases hd : lookup d k' with _ | w
    · simp [lookup, Ne.symm hne]
    · simp

/-! ### Helper lemmas about the fetch loop -/

lemma fetchLoop_success_inv (maxSize : Nat) :
    ∀ (evs : List StreamEvent) (file : UploadFile) (size : Nat) (f : UploadFile),
      file.size = size → size ≤ maxSize →
      (fetchLoop maxSize file size evs).1 = .success f →
      f.pos = 0 ∧ f.size ≤ maxSize := by
  intro evs
  induction evs with
  | nil =>
      intro file size f hsz hle h
      simp only [fetchLoop, UploadFile.seek0] at h
      injection h with h
      subst h
      refine ⟨rfl, ?_⟩
      simp only [UploadFile.seek0, UploadFile.size] at hsz ⊢
      omega
  | cons e rest ih =>
      intro file size f hsz hle h
      cases e with
      | httpError m => simp [fetchLoop] at h
      | chunk c =>
          simp only [fetchLoop, UploadFile.write] at h
          by_cases hc : size + c.length > maxSize
          · rw [if_pos hc] at h
            simp at h
          · rw [if_neg hc] at h
            refine ih ⟨file.data ++ c, file.pos + c.length⟩ (size + c.length) f ?_ (by omega) h
            simp only [UploadFile.size, List.length_append] at hsz ⊢
            omega

lemma fetchLoop_oversized (maxSize B : Nat) :
    ∀ (chunks : List Chunk) (rest : List StreamEvent) (file : UploadFile) (size : Nat),
      size ≤ maxSize → maxSize < size + chunksTotal chunks →
      (∀ c ∈ chunks, c.length ≤ B) →
      (fetchLoop maxSize file size (chunks.map StreamEvent.chunk ++ rest)).1 = .oversized ∧
      size + (fetchLoop maxSize file size (chunks.map StreamEvent.chunk ++ rest)).2 ≤ maxSize + B := by
  intro chunks
  induction chunks with
  | nil =>
      intro rest file size hle hbig _
      simp [chunksTotal] at hbig
      omega
  | cons c cs ih =>
      intro rest file size hle hbig hB
      simp only [List.map_cons, List.cons_append, fetchLoop, UploadFile.write,
        List.append_eq]
      by_cases hc : size + c.length > maxSize
      · rw [if_pos hc]
        refine ⟨rfl, ?_⟩
        have := hB c (List.mem_cons_self c cs)
        simp only
        omega
      · rw [if_neg hc]
        have hrec := ih rest ⟨file.data ++ c, file.pos + c.length⟩ (size + c.length)
          (by omega)
          (by simp only [chunksTotal, List.map_cons, List.sum_cons] at hbig ⊢; omega)
          (fun c' hc' => hB c' (List.mem_cons_of_mem c hc'))
        refine ⟨hrec.1, ?_⟩
        have := hrec.2
        simp only
        omega

lemma fetchLoop_httpError (maxSize : Nat) (m : String) (tail : List StreamEvent) :
    ∀ (chunks : List Chunk) (file : UploadFile) (size : Nat),
      size + chunksTotal chunks ≤ maxSize →
      (fetchLoop maxSize file size
        (chunks.map StreamEvent.chunk ++ StreamEvent.httpError m :: tail)).1
        = .unavailable m := by
  intro chunks
  induction chunks with
  | nil => intro file size _; simp [fetchLoop]
  | cons c cs ih =>
      intro file size hle
      simp only [chunksTotal, List.map_cons, List.sum_cons] at hle
      simp only [List.map_cons, List.cons_append, fetchLoop, UploadFile.write]
      rw [if_neg (by omega)]
      exact ih ⟨file.data ++ c, file.pos + c.length⟩ (size + c.length)
        (by simp only [chunksTotal]; omega)

lemma fetchLoop_success_val (maxSize : Nat) :
    ∀ (chunks : List Chunk) (file : UploadFile) (size : Nat),
      size + chunksTotal chunks ≤ maxSize →
      fetchLoop maxSize file size (chunks.map StreamEvent.chunk)
        = (.success ⟨file.data ++ chunks.flatten, 0⟩, chunksTotal chunks) := by
  intro chunks
  induction chunks with
  | nil =>
      intro file size _
      simp [fetchLoop, UploadFile.seek0, chunksTotal]
  | cons c cs ih =>
      intro file size hle
      simp only [chunksTotal, List.map_cons, List.sum_cons] at hle
      simp only [List.map_cons, fetchLoop, UploadFile.write]
      rw [if_neg (by omega)]
      rw [ih ⟨file.data ++ c, file.pos + c.length⟩ (size + c.length)
        (by simp only [chunksTotal]; omega)]
      simp [chunksTotal, List.flatten]

lemma headerGtMax_none (maxSize : Nat) :
    headerGtMax Option.none maxSize = .ok false := by
  have h : ¬ ((-1 : Int) > (maxSize : Int)) := by omega
  simp [headerGtMax, h]

lemma len_le_chunksTotal (c : Chunk) (l : List Chunk) (h : c ∈ l) :
    c.length ≤ chunksTotal l := by
  induction l with
  | nil => cases h
  | cons d ds ih =>
      rcases List.mem_cons.mp h with h1 | h2
      · subst h1
        simp only [chunksTotal, List.map_cons, List.sum_cons]
        omega
      · have := ih h2
        simp only [chunksTotal, List.map_cons, List.sum_cons] at this ⊢
        omega

lemma request_params_eq {J : Type} (apiKey : String) (file : UploadFile)
    (params : Params) (post : PostOutcome J) :
    (request apiKey file params post).params
      = dictInsert (dictInsert params "api_key" (PVal.str apiKey))
          "output_type" (PVal.int 2) := by
  cases post with
  | transportError => rfl
  | response status text json =>
      simp only [request]
      split <;> rfl

/-! ### The claims -/

/-- Claim C1 (code bug): with a maximum of 100 bytes and a response that
declares `content-length: "101"`, the header comparison
`response.headers.get("content-length", -1) > IMAGE_MAXIMUM_SIZE` compares a
`str` with an int and raises an uncaught `TypeError`. No body bytes are
read, but the fetch does not fail with `ImageSourceOversizedException` as
the claim states — the oversized-by-header path of the claim is
unreachable whenever the header is present. -/
theorem C1_header_check_raises_typeerror :
    fetch 100 (.ok ⟨some "101", [StreamEvent.chunk [1, 2, 3]]⟩)
      = (.pyTypeError, 0) ∧
    (fetch 100 (.ok ⟨some "101", [StreamEvent.chunk [1, 2, 3]]⟩)).1
      ≠ FetchResult.oversized := by
  exact ⟨rfl, by decide⟩

/-- Claim C2, counterexample to the claim as stated: a response declaring
`content-length: "4"` whose actual body (two 3-byte chunks, 6 bytes) exceeds
the maximum of 4. The claim says fetch fails with
`ImageSourceOversizedException` regardless of the declared content-length;
with the header present the code instead raises the uncaught `TypeError` of
the header comparison. -/
theorem C2_declared_length_counterexample :
    chunksTotal [[1, 1, 1], [1, 1, 1]] > 4 ∧
    (fetch 4 (.ok ⟨some "4",
        ([[1, 1, 1], [1, 1, 1]] : List Chunk).map StreamEvent.chunk⟩)).1
      ≠ FetchResult.oversized := by decide

/-- Claim C2 (amended to responses with no declared `content-length`): when
the actual body exceeds the configured maximum, fetch fails with
`ImageSourceOversizedException`, and it stops reading as soon as the running
count crosses the cap: when every chunk is at most `B` bytes, at most
`maxSize + B` body bytes are consumed. -/
theorem C2_stream_oversized (maxSize B : Nat) (chunks : List Chunk)
    (hB : ∀ c ∈ chunks, c.length ≤ B)
    (hbig : chunksTotal chunks > maxSize) :
    (fetch maxSize (.ok ⟨Option.none, chunks.map StreamEvent.chunk⟩)).1
      = FetchResult.oversized ∧
    (fetch maxSize (.ok ⟨Option.none, chunks.map StreamEvent.chunk⟩)).2
      ≤ maxSize + B := by
  have hloop := fetchLoop_oversized maxSize B chunks [] UploadFile.empty 0
    (Nat.zero_le _) (by omega) hB
  rw [List.append_nil] at hloop
  constructor
  · simpa [fetch, headerGtMax_none] using hloop.1
  · simpa [fetch, headerGtMax_none] using hloop.2

/-- Witness for C2: maximum 2, two 2-byte chunks (4 bytes total, each chunk
at most 2 bytes): the fetch is oversized and consumes at most 2 + 2 bytes. -/
theorem C2_stream_oversized_witness :
    (∀ c ∈ ([[1, 1], [1, 1]] : List Chunk), c.length ≤ 2) ∧
    chunksTotal [[1, 1], [1, 1]] > 2 ∧
    (fetch 2 (.ok ⟨Option.none,
        ([[1, 1], [1, 1]] : List Chunk).map StreamEvent.chunk⟩)).1
      = FetchResult.oversized ∧
    (fetch 2 (.ok ⟨Option.none,
        ([[1, 1], [1, 1]] : List Chunk).map StreamEvent.chunk⟩)).2 ≤ 2 + 2 := by
  have h := C2_stream_oversized 2 2 [[1, 1], [1, 1]] (by decide) (by decide)
  exact ⟨by decide, by decide, h.1, h.2⟩

/-- Claim C3: every successful fetch returns a buffer whose read cursor is
at position 0 (the final `file.seek(0)`) and whose total size is at most the
configured maximum (the per-chunk cap check admits no larger buffer). -/
theorem C3_fetch_success_buffer (maxSize : Nat) (inp : FetchInput)
    (f : UploadFile)
    (h : (fetch maxSize inp).1 = FetchResult.success f) :
    f.pos = 0 ∧ f.size ≤ maxSize := by
  cases inp with
  | openError m => simp [fetch] at h
  | ok r =>
      rcases r with ⟨cl, evs⟩
      cases cl with
      | some s => simp [fetch, headerGtMax] at h
      | none =>
          simp only [fetch, headerGtMax_none] at h
          exact fetchLoop_success_inv maxSize evs UploadFile.empty 0 f rfl
            (Nat.zero_le _) h

/-- Witness for C3: fetching a 2-byte body under a 10-byte maximum succeeds
with the buffer rewound to 0 and size 2 ≤ 10. -/
theorem C3_fetch_success_buffer_witness :
    ( UploadFile.mk [5, 6] 0).pos = 0 ∧ ( UploadFile.mk [5, 6] 0).size ≤ 10 :=
  C3_fetch_success_buffer 10 (.ok ⟨Option.none, [StreamEvent.chunk [5, 6]]⟩)
    ⟨[5, 6], 0⟩ (by decide)

/-- Claim C4: when the upstream POST comes back with a non-success HTTP
status, `raise_for_status` raises `HTTPStatusError` and `request` fails with
`UpstreamAPIException` whose detail is the upstream response body text. -/
theorem C4_request_status_error {J : Type} (apiKey : String)
    (file : UploadFile) (params : Params) (status : Nat) (text : String)
    (json : J)
    (h : ¬ (200 ≤ status ∧ status < 300)) :
    (request apiKey file params (.response status text json)).result
      = .error (.upstream (some text)) := by
  simp [request, h]

/-- Witness for C4: a 500 with body "err" yields
`UpstreamAPIException(detail="err")`. -/
theorem C4_request_status_error_witness :
    (request "key" UploadFile.empty [] (.response 500 "err" (0 : Nat))).result
      = .error (.upstream (some "err")) :=
  C4_request_status_error "key" UploadFile.empty [] 500 "err" 0 (by decide)

/-- Claim C5: a transport-level `HTTPError` during fetch — at stream opening
or mid-stream before the cap is crossed — is wrapped as
`UnavailableSourceException` carrying the original error text as detail,
while a body that crosses the cap yields `ImageSourceOversizedException`
even when a transport error would occur later in the stream: the oversized
exception is not re-wrapped by the `except HTTPError` handler. -/
theorem C5_fetch_unavailable (maxSize : Nat) (m : String) (chunks : List Chunk)
    (tail : List StreamEvent) :
    fetch maxSize (.openError m) = (.unavailable m, 0) ∧
    (chunksTotal chunks ≤ maxSize →
      (fetch maxSize (.ok ⟨Option.none,
          chunks.map StreamEvent.chunk ++ StreamEvent.httpError m :: tail⟩)).1
        = FetchResult.unavailable m) ∧
    (chunksTotal chunks > maxSize →
      (fetch maxSize (.ok ⟨Option.none,
          chunks.map StreamEvent.chunk ++ StreamEvent.httpError m :: tail⟩)).1
        = FetchResult.oversized) := by
  refine ⟨rfl, ?_, ?_⟩
  · intro hle
    simp only [fetch, headerGtMax_none]
    exact fetchLoop_httpError maxSize m tail chunks UploadFile.empty 0
      (by omega)
  · intro hbig
    simp only [fetch, headerGtMax_none]
    exact (fetchLoop_oversized maxSize (chunksTotal chunks) chunks
      (StreamEvent.httpError m :: tail) UploadFile.empty 0 (Nat.zero_le _)
      (by omega) (fun c hc => len_le_chunksTotal c chunks hc)).1

/-- Witness for C5: an open error and a mid-stream error are wrapped with
their original text; a stream that crosses the cap before its transport
error yields the oversized failure instead. -/
theorem C5_fetch_unavailable_witness :
    fetch 5 (.openError "mid") = (.unavailable "mid", 0) ∧
    (fetch 5 (.ok ⟨Option.none, ([[1, 2]] : List Chunk).map StreamEvent.chunk
        ++ StreamEvent.httpError "mid" :: []⟩)).1
      = FetchResult.unavailable "mid" ∧
    (fetch 2 (.ok ⟨Option.none, ([[1, 2, 3]] : List Chunk).map StreamEvent.chunk
        ++ StreamEvent.httpError "mid" :: []⟩)).1
      = FetchResult.oversized := by
  have h5 := C5_fetch_unavailable 5 "mid" [[1, 2]] []
  have h2 := C5_fetch_unavailable 2 "mid" [[1, 2, 3]] []
  exact ⟨h5.1, h5.2.1 (by decide), h2.2.2 (by decide)⟩

/-- Claim C6: a transport-level failure of the upstream POST (an
`httpx.HTTPError` that is not a status error, e.g. connection refused) makes
`request` fail with a generic `UpstreamAPIException` carrying no body
detail. -/
theorem C6_request_transport_error {J : Type} (apiKey : String)
    (file : UploadFile) (params : Params) :
    (request apiKey file params
        (PostOutcome.transportError : PostOutcome J)).result
      = .error (.upstream Option.none) := by
  simp [request]

/-- Claim C7: a `search` left at its defaults posts exactly the bundle
`dbmask=None, dbmaski=None, db=None, numres=30, dedupe=2` merged (in place,
in insertion order) with `api_key` and `output_type=2`, and on upstream
success returns the parsed JSON body unmodified — both when a file buffer is
supplied directly and when a URL is fetched first. -/
theorem C7_search_defaults_bundle {J : Type} (apiKey : String) (maxSize : Nat)
    (buf : UploadFile) (chunks : List Chunk) (status : Nat) (text : String)
    (json : J)
    (hs : 200 ≤ status ∧ status < 300)
    (hsmall : chunksTotal chunks ≤ maxSize) :
    (searchDefault apiKey maxSize Option.none (some buf)
        (.response status text json)).postParams
      = some [("dbmask", PVal.none), ("dbmaski", PVal.none), ("db", PVal.none),
          ("numres", PVal.int 30), ("dedupe", PVal.int 2),
          ("api_key", PVal.str apiKey), ("output_type", PVal.int 2)] ∧
    (searchDefault apiKey maxSize Option.none (some buf)
        (.response status text json)).result = .ok json ∧
    (searchDefault apiKey maxSize
        (some (.ok ⟨Option.none, chunks.map StreamEvent.chunk⟩)) Option.none
        (.response status text json)).postParams
      = some [("dbmask", PVal.none), ("dbmaski", PVal.none), ("db", PVal.none),
          ("numres", PVal.int 30), ("dedupe", PVal.int 2),
          ("api_key", PVal.str apiKey), ("output_type", PVal.int 2)] ∧
    (searchDefault apiKey maxSize
        (some (.ok ⟨Option.none, chunks.map StreamEvent.chunk⟩)) Option.none
        (.response status text json)).result = .ok json := by
  have hmerged : dictUpdate
      (searchParams 30 DeduplicateType.ALL Option.none Option.none Option.none)
      [("api_key", PVal.str apiKey), ("output_type", PVal.int 2)]
      = [("dbmask", PVal.none), ("dbmaski", PVal.none), ("db", PVal.none),
         ("numres", PVal.int 30), ("dedupe", PVal.int 2),
         ("api_key", PVal.str apiKey), ("output_type", PVal.int 2)] := rfl
  have hfetch : fetch maxSize (.ok ⟨Option.none, chunks.map StreamEvent.chunk⟩)
      = (.success ⟨chunks.flatten, 0⟩, chunksTotal chunks) := by
    simp only [fetch, headerGtMax_none]
    exact fetchLoop_success_val maxSize chunks UploadFile.empty 0 (by omega)
  refine ⟨?_, ?_, ?_, ?_⟩
  · simp only [searchDefault, search, request, hmerged]
    rw [if_pos hs]
  · simp only [searchDefault, search, request]
    rw [if_pos hs]
    rfl
  · simp only [searchDefault, search, hfetch, request, hmerged]
    rw [if_pos hs]
  · simp only [searchDefault, search, hfetch, request]
    rw [if_pos hs]
    rfl

/-- Witness for C7: a concrete defaulted search by file and by URL (3-byte
body, maximum 10, status 200) produces the exact merged bundle and returns
the parsed JSON value 7. -/
theorem C7_search_defaults_bundle_witness :
    (searchDefault "KEY" 10 Option.none (some ⟨[9], 0⟩)
        (.response 200 "body" (7 : Nat))).postParams
      = some [("dbmask", PVal.none), ("dbmaski", PVal.none), ("db", PVal.none),
          ("numres", PVal.int 30), ("dedupe", PVal.int 2),
          ("api_key", PVal.str "KEY"), ("output_type", PVal.int 2)] ∧
    (searchDefault "KEY" 10 Option.none (some ⟨[9], 0⟩)
        (.response 200 "body" (7 : Nat))).result = .ok 7 ∧
    (searchDefault "KEY" 10
        (some (.ok ⟨Option.none, ([[1, 2, 3]] : List Chunk).map StreamEvent.chunk⟩))
        Option.none (.response 200 "body" (7 : Nat))).postParams
      = some [("dbmask", PVal.none), ("dbmaski", PVal.none), ("db", PVal.none),
          ("numres", PVal.int 30), ("dedupe", PVal.int 2),
          ("api_key", PVal.str "KEY"), ("output_type", PVal.int 2)] ∧
    (searchDefault "KEY" 10
        (some (.ok ⟨Option.none, ([[1, 2, 3]] : List Chunk).map StreamEvent.chunk⟩))
        Option.none (.response 200 "body" (7 : Nat))).result = .ok 7 :=
  C7_search_defaults_bundle "KEY" 10 ⟨[9], 0⟩ [[1, 2, 3]] 200 "body" 7
    (by decide) (by decide)

/-- Claim C8: a `search` supplying only a file buffer performs no GET
request (the fetcher is never invoked), and `deduplicate=DISABLED` is
forwarded to the upstream POST as `dedupe=0`. -/
theorem C8_search_file_no_get {J : Type} (apiKey : String) (maxSize : Nat)
    (buf : UploadFile) (size : Int)
    (database enabled_mask disabled_mask : Option Int)
    (post : PostOutcome J) :
    (search apiKey maxSize Option.none (some buf) size
        DeduplicateType.DISABLED database enabled_mask disabled_mask
        post).getRequests = 0 ∧
    ∃ p, (search apiKey maxSize Option.none (some buf) size
        DeduplicateType.DISABLED database enabled_mask disabled_mask
        post).postParams = some p ∧
      lookup p "dedupe" = some (PVal.int 0) := by
  have hp := request_params_eq apiKey buf
    (searchParams size DeduplicateType.DISABLED database enabled_mask
      disabled_mask) post
  refine ⟨rfl, dictInsert (dictInsert (searchParams size
      DeduplicateType.DISABLED database enabled_mask disabled_mask)
      "api_key" (PVal.str apiKey)) "output_type" (PVal.int 2), ?_, ?_⟩
  · show some ((request apiKey buf (searchParams size
        DeduplicateType.DISABLED database enabled_mask disabled_mask)
        post).params) = _
    rw [hp]
  · rw [lookup_dictInsert_ne _ _ _ _ (by decide),
        lookup_dictInsert_ne _ _ _ _ (by decide)]
    rfl

/-- Claim C9 (HostUrl validation modelled from the spec, `BaseHostUrl` not
being under `src/`): a host outside the allow-list makes `HostUrl`
construction fail, and the search-by-URL entry therefore fails before
`search` — and hence any network call — is reached. -/
theorem C9_host_not_allowed {J : Type} (allowed : List String)
    (apiKey : String) (maxSize : Nat) (host : String) (net : FetchInput)
    (post : PostOutcome J)
    (h : host ∉ allowed) :
    HostUrl.validate allowed host = .error "host not in allow-list" ∧
    searchByUrl allowed apiKey maxSize host net post
      = (.error "host not in allow-list" : Except String (SearchTrace J)) := by
  have hv : HostUrl.validate allowed host = .error "host not in allow-list" := by
    simp [HostUrl.validate, h]
  exact ⟨hv, by simp [searchByUrl, hv]⟩

/-- Witness for C9: "evil.example.com" against the allow-list
["saucenao.com"]. -/
theorem C9_host_not_allowed_witness :
    HostUrl.validate ["saucenao.com"] "evil.example.com"
      = .error "host not in allow-list" ∧
    searchByUrl ["saucenao.com"] "key" 10 "evil.example.com" (.openError "x")
      (PostOutcome.transportError : PostOutcome Nat)
      = .error "host not in allow-list" :=
  C9_host_not_allowed ["saucenao.com"] "key" 10 "evil.example.com"
    (.openError "x") (PostOutcome.transportError : PostOutcome Nat) (by decide)

/-- Claim C10: `params.update(...)` mutates the caller's dict in place
before the POST is attempted, so whatever the outcome the caller's dict ends
up holding the `api_key` and `output_type` entries while every other key
keeps its value. -/
theorem C10_request_mutates_params {J : Type} (apiKey : String)
    (file : UploadFile) (params : Params) (post : PostOutcome J) :
    lookup (request apiKey file params post).params "api_key"
      = some (PVal.str apiKey) ∧
    lookup (request apiKey file params post).params "output_type"
      = some (PVal.int 2) ∧
    ∀ k : String, k ≠ "api_key" → k ≠ "output_type" →
      lookup (request apiKey file params post).params k = lookup params k := by
  have hp := request_params_eq apiKey file params post
  refine ⟨?_, ?_, ?_⟩
  · rw [hp, lookup_dictInsert_ne _ _ _ _ (by decide), lookup_dictInsert_self]
  · rw [hp, lookup_dictInsert_self]
  · intro k hk1 hk2
    rw [hp, lookup_dictInsert_ne _ _ _ _ hk2, lookup_dictInsert_ne _ _ _ _ hk1]

/-- Witness for C10: a dict holding only "db" gains "api_key" and
"output_type" while "db" keeps its value, even when the POST fails at the
transport level. -/
theorem C10_request_mutates_params_witness :
    lookup (request "k0" UploadFile.empty [("db", PVal.none)]
        (PostOutcome.transportError : PostOutcome Nat)).params "api_key"
      = some (PVal.str "k0") ∧
    lookup (request "k0" UploadFile.empty [("db", PVal.none)]
        (PostOutcome.transportError : PostOutcome Nat)).params "output_type"
      = some (PVal.int 2) ∧
    lookup (request "k0" UploadFile.empty [("db", PVal.none)]
        (PostOutcome.transportError : PostOutcome Nat)).params "db"
      = lookup [("db", PVal.none)] "db" := by
  have h := C10_request_mutates_params "k0" UploadFile.empty
    [("db", PVal.none)] (PostOutcome.transportError : PostOutcome Nat)
  exact ⟨h.1, h.2.1, h.2.2 "db" (by decide) (by decide)⟩

end Sauce
